import Mathlib

/-!
Shallow embedding of the infra-health-tool repository (cli.py, log_parser.py,
reporter.py) and verification of its specification claims.

Numbers that Python stores as floats are modelled as rationals; every claim
here depends only on comparisons and equalities of decimal values, never on
binary floating-point rounding.
-/

/-- Model of a Python value as it flows through the CLI: the shapes that
cli.py inspects (None, bool, int, float, str, list, dict). -/
inductive PyVal where
  | none : PyVal
  | bool : Bool → PyVal
  | int : Int → PyVal
  | float : ℚ → PyVal
  | str : String → PyVal
  | list : List PyVal → PyVal
  | dict : List (String × PyVal) → PyVal

/-- Model of Python dict.get on a string-keyed dict: first binding wins,
absent key gives none. -/
def pyGet (d : List (String × PyVal)) (k : String) : Option PyVal :=
  match d with
  | [] => Option.none
  | (k2, v) :: rest => if k2 = k then Option.some v else pyGet rest k

/-- Digits of a numeral read as a natural number. -/
def natOfDigits (cs : List Char) : ℕ :=
  cs.foldl (fun acc c => acc * 10 + (c.toNat - 48)) 0

/-- Model of Python str.strip on the character list: drop whitespace from
both ends. -/
def stripList (cs : List Char) : List Char :=
  ((cs.dropWhile Char.isWhitespace).reverse.dropWhile Char.isWhitespace).reverse

/-- Model of Python str.strip as a String operation. -/
def pyStrip (s : String) : String :=
  String.mk (stripList s.toList)

/-- Models the conversion Python performs in float(str) on plain decimal
literals (optional sign, digits, optional fractional part); scientific
formats are omitted, which no claim depends on. Returns none exactly when
Python float() would raise ValueError on such a literal. -/
def pyFloatOfString (s : String) : Option ℚ :=
  let cs := stripList s.toList
  let rest := match cs with
    | '-' :: r => r
    | '+' :: r => r
    | r => r
  let sign : ℚ := match cs with
    | '-' :: _ => -1
    | _ => 1
  let ip := rest.takeWhile Char.isDigit
  let r2 := rest.dropWhile Char.isDigit
  match r2 with
  | [] => if ip.isEmpty then Option.none else Option.some (sign * natOfDigits ip)
  | '.' :: fr =>
      if fr.all Char.isDigit && !(ip.isEmpty && fr.isEmpty) then
        Option.some (sign * ((natOfDigits ip : ℚ) + (natOfDigits fr : ℚ) / (10 : ℚ) ^ fr.length))
      else Option.none
  | _ => Option.none

/-- Embeds cli.py _as_float: best-effort conversion to float, returning
none when Python float() would raise TypeError or ValueError (caught in
the source) and none for an input of None. -/
def _as_float (v : PyVal) : Option ℚ :=
  match v with
  | PyVal.none => Option.none
  | PyVal.bool b => Option.some (if b then 1 else 0)
  | PyVal.int n => Option.some (n : ℚ)
  | PyVal.float q => Option.some q
  | PyVal.str s => pyFloatOfString s
  | PyVal.list _ => Option.none
  | PyVal.dict _ => Option.none

/-- Embeds cli.py _get_usage_percent: looks up the section, requires it to
be a dict, then converts its usage_percent entry (dict.get defaulting to
None when the key is absent). -/
def _get_usage_percent (system_metrics : List (String × PyVal)) (sect : String) : Option ℚ :=
  match pyGet system_metrics sect with
  | Option.some (PyVal.dict block) => _as_float ((pyGet block "usage_percent").getD PyVal.none)
  | _ => Option.none

/-- Embeds cli.py _status: missing percent gives the string N/A, otherwise
OK when percent is strictly below the warn threshold, else WARN. -/
def _status (percent : Option ℚ) (warn_threshold : ℚ) : String :=
  match percent with
  | Option.none => "N/A"
  | Option.some p => if p < warn_threshold then "OK" else "WARN"

/-- The fixed pattern set of log_parser.py. -/
def DEFAULT_PATTERNS : List String :=
  ["ERROR", "WARNING", "WARN", "FAILED", "TIMEOUT", "EXCEPTION"]

/-- One directory entry as the scanner sees it: its name, whether it is a
regular file, whether opening and reading it succeeds, and its lines. -/
structure FileEntry where
  name : String
  isRegularFile : Bool
  readable : Bool
  lines : List String
deriving DecidableEq

/-- The file-system view the scanner consults: existing directories with
their entries; a path absent from the list is not a directory. -/
structure FileSys where
  dirs : List (String × List FileEntry)
deriving DecidableEq

/-- Whether the first character list occurs at the head of the second. -/
def leadsWith : List Char → List Char → Bool
  | [], _ => true
  | _ :: _, [] => false
  | p :: ps, c :: cs => p == c && leadsWith ps cs

/-- Whether pat occurs as a contiguous run anywhere in the character
list. -/
def containsSub (pat : List Char) : List Char → Bool
  | [] => pat.isEmpty
  | c :: rest => leadsWith pat (c :: rest) || containsSub pat rest

/-- Model of the Python membership test p in s on strings. -/
def strContains (s pat : String) : Bool :=
  containsSub pat.toList s.toList

/-- The analysis record analyze_logs returns (log_parser.py). -/
structure LogAnalysis where
  logs_dir : String
  files_scanned : ℕ
  problem_counts : List (String × ℕ)
  examples : List (String × List String)
deriving DecidableEq

/-- Increment the counter stored under key k. -/
def bumpCount (m : List (String × ℕ)) (k : String) : List (String × ℕ) :=
  m.map (fun kv => if kv.1 = k then (kv.1, kv.2 + 1) else kv)

/-- Append an example line under key k when fewer than 3 are stored. -/
def addExample (m : List (String × List String)) (k : String) (line : String) :
    List (String × List String) :=
  m.map (fun kv => if kv.1 = k ∧ kv.2.length < 3 then (kv.1, kv.2 ++ [line]) else kv)

/-- Embeds the per-file loop of analyze_logs: non-files are skipped,
files_scanned is incremented before the read is attempted, an unreadable
file is skipped after being counted, and each stripped line bumps the
counter of every pattern it contains (recording up to 3 example lines). -/
def scanFile (patterns : List String) (acc : LogAnalysis) (e : FileEntry) : LogAnalysis :=
  if !e.isRegularFile then acc
  else
    let acc1 := { acc with files_scanned := acc.files_scanned + 1 }
    if !e.readable then acc1
    else e.lines.foldl (fun a line =>
      let ls := pyStrip line
      patterns.foldl (fun a2 p =>
        if strContains ls p then
          { a2 with problem_counts := bumpCount a2.problem_counts p,
                    examples := addExample a2.examples p ls }
        else a2) a) acc1

/-- Embeds analyze_logs of log_parser.py: builds the zeroed result, returns
it unchanged when logs_dir is not a directory, otherwise folds the scan
over the directory entries. -/
def analyze_logs (fs : FileSys) (logs_dir : String) (patterns : List String) : LogAnalysis :=
  let result : LogAnalysis :=
    { logs_dir := logs_dir
      files_scanned := 0
      problem_counts := patterns.map (fun p => (p, 0))
      examples := patterns.map (fun p => (p, [])) }
  match List.lookup logs_dir fs.dirs with
  | Option.none => result
  | Option.some entries => entries.foldl (scanFile patterns) result

/-- The dict shape in which analyze_logs hands its result to cli.py. -/
def LogAnalysis.toPy (a : LogAnalysis) : PyVal :=
  PyVal.dict
    [("logs_dir", PyVal.str a.logs_dir),
     ("files_scanned", PyVal.int a.files_scanned),
     ("problem_counts", PyVal.dict (a.problem_counts.map (fun kv => (kv.1, PyVal.int kv.2)))),
     ("examples", PyVal.dict (a.examples.map (fun kv => (kv.1, PyVal.list (kv.2.map PyVal.str)))))]

/-- Model of Python isinstance(v, int), which also accepts bool. -/
def pyIsInt (v : PyVal) : Bool :=
  match v with
  | PyVal.int _ => true
  | PyVal.bool _ => true
  | _ => false

/-- The integer a PyVal known to satisfy pyIsInt stands for. -/
def pyToInt (v : PyVal) : Int :=
  match v with
  | PyVal.int n => n
  | PyVal.bool b => if b then 1 else 0
  | _ => 0

/-- Embeds the total-matches block of cli.py main: starts from 0 and only
replaces it when the analysis dict carries an integer under total_matches
or, failing that, under total_problems_found. -/
def cliTotalMatches (log_analysis : PyVal) : Int :=
  match log_analysis with
  | PyVal.dict d =>
      if pyIsInt ((pyGet d "total_matches").getD PyVal.none) then
        pyToInt ((pyGet d "total_matches").getD PyVal.none)
      else if pyIsInt ((pyGet d "total_problems_found").getD PyVal.none) then
        pyToInt ((pyGet d "total_problems_found").getD PyVal.none)
      else 0
  | _ => 0

/-- Modelled from the spec: totalMatches is the sum of all values of
problem_counts (spec 4.2). This is the comparison definition for the
aggregation claim; the source computes the CLI total in cliTotalMatches. -/
def totalMatchesSpec (a : LogAnalysis) : ℕ :=
  (a.problem_counts.map Prod.snd).sum

/-- A JSON document, the shape json.dump writes and json.load reads. -/
inductive Json where
  | null : Json
  | bool : Bool → Json
  | num : ℚ → Json
  | str : String → Json
  | arr : List Json → Json
  | obj : List (String × Json) → Json

mutual

/-- Model of json.dump serialization of a Python value into a JSON
document. -/
def pyToJson : PyVal → Json
  | PyVal.none => Json.null
  | PyVal.bool b => Json.bool b
  | PyVal.int n => Json.num (n : ℚ)
  | PyVal.float q => Json.num q
  | PyVal.str s => Json.str s
  | PyVal.list l => Json.arr (pyListToJson l)
  | PyVal.dict d => Json.obj (pyDictToJson d)

/-- Serialization of a list of Python values. -/
def pyListToJson : List PyVal → List Json
  | [] => []
  | v :: vs => pyToJson v :: pyListToJson vs

/-- Serialization of the bindings of a Python dict. -/
def pyDictToJson : List (String × PyVal) → List (String × Json)
  | [] => []
  | (k, v) :: rest => (k, pyToJson v) :: pyDictToJson rest

end

/-- A clock reading with second resolution, what datetime.now supplies to
the reporter. -/
structure Timestamp where
  year : ℕ
  month : ℕ
  day : ℕ
  hour : ℕ
  minute : ℕ
  second : ℕ
deriving DecidableEq

/-- Two-digit zero padding, as strftime renders month through second. -/
def pad2 (n : ℕ) : String :=
  if n < 10 then "0" ++ toString n else toString n

/-- Four-digit zero padding, as strftime renders the year. -/
def pad4 (n : ℕ) : String :=
  if n < 10 then "000" ++ toString n
  else if n < 100 then "00" ++ toString n
  else if n < 1000 then "0" ++ toString n
  else toString n

/-- The strftime format used for report filenames. -/
def fmtTimestamp (t : Timestamp) : String :=
  pad4 t.year ++ "-" ++ pad2 t.month ++ "-" ++ pad2 t.day ++ "_" ++
    pad2 t.hour ++ "-" ++ pad2 t.minute ++ "-" ++ pad2 t.second

/-- The isoformat timestamp with second resolution stored inside the
report. -/
def isoTimestamp (t : Timestamp) : String :=
  pad4 t.year ++ "-" ++ pad2 t.month ++ "-" ++ pad2 t.day ++ "T" ++
    pad2 t.hour ++ ":" ++ pad2 t.minute ++ ":" ++ pad2 t.second

/-- The deterministic report filename generate_report derives from the
clock. -/
def reportFilename (t : Timestamp) : String :=
  "health_report_" ++ fmtTimestamp t ++ ".json"

/-- Model of Path.mkdir with parents and exist_ok: the directory is added
when absent and the call is a no-op (never an error) when it already
exists. -/
def mkdirs (dirs : List String) (d : String) : List String :=
  if d ∈ dirs then dirs else d :: dirs

/-- The writable side of the file system: directories that exist and the
JSON files written, newest binding first (List.lookup sees the newest
write at a path, so rewriting a path shadows the older file). -/
structure OutState where
  dirs : List String
  files : List (String × Json)

/-- Embeds the report dict generate_report builds, as json.dump serializes
it: the five top-level keys in source order, thresholds as numbers and
evaluations as strings. -/
def buildReport (timestamp : String) (system_metrics : Json) (log_analysis : Json)
    (thresholds : List (String × ℚ)) (evaluations : List (String × String)) : Json :=
  Json.obj
    [("timestamp", Json.str timestamp),
     ("system_metrics", system_metrics),
     ("log_analysis", log_analysis),
     ("thresholds", Json.obj (thresholds.map (fun kv => (kv.1, Json.num kv.2)))),
     ("evaluations", Json.obj (evaluations.map (fun kv => (kv.1, Json.str kv.2))))]

/-- Serialization of the analysis record as json.dump renders it inside
the report. -/
def logAnalysisToJson (a : LogAnalysis) : Json :=
  Json.obj
    [("logs_dir", Json.str a.logs_dir),
     ("files_scanned", Json.num (a.files_scanned : ℚ)),
     ("problem_counts", Json.obj (a.problem_counts.map (fun kv => (kv.1, Json.num (kv.2 : ℚ))))),
     ("examples", Json.obj (a.examples.map (fun kv => (kv.1, Json.arr (kv.2.map Json.str)))))]

/-- Embeds generate_report of reporter.py: builds the report with a fresh
isoformat timestamp, creates the output directory if absent, and writes
the report to output_dir slash health_report timestamp dot json, returning
the path. -/
def generate_report (system_metrics : Json) (log_analysis : LogAnalysis)
    (thresholds : List (String × ℚ)) (evaluations : List (String × String))
    (output_dir : String) (st : OutState) (now : Timestamp) : String × OutState :=
  let report := buildReport (isoTimestamp now) system_metrics (logAnalysisToJson log_analysis)
    thresholds evaluations
  let st1 : OutState := { st with dirs := mkdirs st.dirs output_dir }
  let path := output_dir ++ "/" ++ reportFilename now
  (path, { st1 with files := (path, report) :: st1.files })

/-- Reading a field of a parsed JSON object, as a consumer of the
persisted document would. -/
def jGet (j : Json) (k : String) : Option Json :=
  match j with
  | Json.obj fields => List.lookup k fields
  | _ => Option.none

/-- The top-level key names of a parsed JSON object, in document order. -/
def jKeys (j : Json) : List String :=
  match j with
  | Json.obj fields => fields.map Prod.fst
  | _ => []

/-- Parsing the bindings of a JSON object back into numeric values; fails
on any non-numeric value. -/
def decodeNumEntries : List (String × Json) → Option (List (String × ℚ))
  | [] => Option.some []
  | (k, Json.num q) :: rest => (decodeNumEntries rest).map (fun l => (k, q) :: l)
  | _ => Option.none

/-- Parsing a persisted thresholds object back into the mapping that was
passed to report generation. -/
def decodeThresholds (j : Json) : Option (List (String × ℚ)) :=
  match j with
  | Json.obj fields => decodeNumEntries fields
  | _ => Option.none

/-- Parsing the bindings of a JSON object back into string values; fails
on any non-string value. -/
def decodeStrEntries : List (String × Json) → Option (List (String × String))
  | [] => Option.some []
  | (k, Json.str s) :: rest => (decodeStrEntries rest).map (fun l => (k, s) :: l)
  | _ => Option.none

/-- Parsing a persisted evaluations object back into the mapping that was
passed to report generation. -/
def decodeEvaluations (j : Json) : Option (List (String × String)) :=
  match j with
  | Json.obj fields => decodeStrEntries fields
  | _ => Option.none

/-- The argument record build_parser produces: the recognized options with
their parsed values. Threshold options are plain floats with defaults
80, 80, 90; build_parser attaches no range validation to them. -/
structure Args where
  json_only : Bool
  quiet : Bool
  cpu_warn : ℚ
  mem_warn : ℚ
  disk_warn : ℚ
  logs_dir : String
  output_dir : String
deriving DecidableEq

/-- The defaults build_parser registers. -/
def defaultArgs : Args :=
  { json_only := false, quiet := false, cpu_warn := 80, mem_warn := 80,
    disk_warn := 90, logs_dir := "logs", output_dir := "reports" }

/-- The full set of option names build_parser registers; there is no
critical-threshold option among them. -/
def parserOptionNames : List String :=
  ["--json-only", "--quiet", "--cpu-warn", "--mem-warn", "--disk-warn",
   "--logs-dir", "--output-dir"]

/-- What one invocation of main produces: the process exit code, the path
of the persisted report, the resulting output file system, and the total
printed in the summary line. -/
structure RunResult where
  exit_code : ℕ
  report_path : String
  out : OutState
  total_matches : Int

/-- Embeds main of cli.py on the success path of persistence: extracts the
three usage percents, analyzes logs, computes the summary total and the
evaluations dict (keys cpu_status, memory_status, disk_status), persists
the report, then returns 0 outright under json_only and otherwise derives
the exit code. The exit-code block reads the keys cpu_status, mem_status
and disk_status verbatim from the source, where mem_status does not match
the memory_status key built above. -/
def cliMain (args : Args) (system_metrics : List (String × PyVal)) (fs : FileSys)
    (st : OutState) (now : Timestamp) : RunResult :=
  let cpu_percent := _get_usage_percent system_metrics "cpu"
  let mem_percent := _get_usage_percent system_metrics "memory"
  let disk_percent := _get_usage_percent system_metrics "disk"
  let log_analysis := analyze_logs fs args.logs_dir DEFAULT_PATTERNS
  let total_matches := cliTotalMatches log_analysis.toPy
  let evaluations :=
    [("cpu_status", _status cpu_percent args.cpu_warn),
     ("memory_status", _status mem_percent args.mem_warn),
     ("disk_status", _status disk_percent args.disk_warn)]
  let thresholds :=
    [("cpu_warn", args.cpu_warn), ("mem_warn", args.mem_warn), ("disk_warn", args.disk_warn)]
  let pr := generate_report (pyToJson (PyVal.dict system_metrics)) log_analysis thresholds
    evaluations args.output_dir st now
  if args.json_only then
    { exit_code := 0, report_path := pr.1, out := pr.2, total_matches := total_matches }
  else
    let exit_code :=
      if cpu_percent = Option.none ∨ mem_percent = Option.none ∨ disk_percent = Option.none then 2
      else if List.lookup "cpu_status" evaluations = Option.some "WARN"
          ∨ List.lookup "mem_status" evaluations = Option.some "WARN"
          ∨ List.lookup "disk_status" evaluations = Option.some "WARN" then 1
      else 0
    { exit_code := exit_code, report_path := pr.1, out := pr.2, total_matches := total_matches }

/-- Metrics snapshot where memory alone is at its warn level. -/
def memWarnMetrics : List (String × PyVal) :=
  [("cpu", PyVal.dict [("usage_percent", PyVal.float 10)]),
   ("memory", PyVal.dict [("usage_percent", PyVal.float 90)]),
   ("disk", PyVal.dict [("usage_percent", PyVal.float 10)])]

/-- Metrics snapshot with every resource comfortably below its default
warn threshold. -/
def okMetrics : List (String × PyVal) :=
  [("cpu", PyVal.dict [("usage_percent", PyVal.float 10)]),
   ("memory", PyVal.dict [("usage_percent", PyVal.float 45)]),
   ("disk", PyVal.dict [("usage_percent", PyVal.float 30)])]

/-- Metrics snapshot in which cpu is over its warn threshold and the
memory and disk sections are missing entirely. -/
def brokenMetrics : List (String × PyVal) :=
  [("cpu", PyVal.dict [("usage_percent", PyVal.float 95)])]

/-- A concrete clock reading. -/
def t0 : Timestamp :=
  { year := 2025, month := 1, day := 2, hour := 3, minute := 4, second := 5 }

/-- The clock reading one second after t0. -/
def t0succ : Timestamp :=
  { year := 2025, month := 1, day := 2, hour := 3, minute := 4, second := 6 }

/-- An output state whose reports directory already exists. -/
def st0 : OutState := { dirs := ["reports"], files := [] }

/-- Arguments whose cpu warn threshold lies outside the range 0 to 100. -/
def args150 : Args := { defaultArgs with cpu_warn := 150 }

/-- Arguments that request json_only output. -/
def jsonOnlyArgs : Args := { defaultArgs with json_only := true }

/-- A logs directory holding one readable file with exactly one line that
contains exactly one pattern occurrence. -/
def logsFsOneError : FileSys :=
  { dirs := [("logs",
      [{ name := "app.log", isRegularFile := true, readable := true,
         lines := [" ERROR disk failing ", "INFO all good"] }])] }

/-- The default thresholds mapping as cli.py main builds it. -/
def th80 : List (String × ℚ) :=
  [("cpu_warn", 80), ("mem_warn", 80), ("disk_warn", 90)]

/-- A second thresholds mapping, differing from th80 in its cpu entry. -/
def th70 : List (String × ℚ) :=
  [("cpu_warn", 70), ("mem_warn", 80), ("disk_warn", 90)]

/-- An all-OK evaluations mapping. -/
def evalsOK : List (String × String) :=
  [("cpu_status", "OK"), ("memory_status", "OK"), ("disk_status", "OK")]

/-- The zeroed analysis of an absent logs directory. -/
def laEmpty : LogAnalysis := analyze_logs { dirs := [] } "logs" DEFAULT_PATTERNS

/-- An empty system-metrics document. -/
def smEmpty : Json := Json.obj []

/-- Strings with equal character data are equal. -/
theorem stringDataInj {a b : String} (h : a.data = b.data) : a = b := by
  cases a; cases b; simp_all

/-- Left cancellation for string append. -/
theorem strAppendCancelLeft {a b c : String} (h : a ++ b = a ++ c) : b = c := by
  apply stringDataInj
  have hd := congrArg String.data h
  rw [String.data_append, String.data_append] at hd
  exact List.append_cancel_left hd

/-- Right cancellation for string append. -/
theorem strAppendCancelRight {a b c : String} (h : a ++ c = b ++ c) : a = b := by
  apply stringDataInj
  have hd := congrArg String.data h
  rw [String.data_append, String.data_append] at hd
  exact List.append_cancel_right hd

/-- Equal report filenames force equal formatted timestamps. -/
theorem reportFilenameInj {t1 t2 : Timestamp}
    (h : reportFilename t1 = reportFilename t2) :
    fmtTimestamp t1 = fmtTimestamp t2 := by
  unfold reportFilename at h
  exact strAppendCancelLeft (strAppendCancelRight h)

/-- Decoding inverts the serialization of a numeric mapping. -/
theorem decodeNumEntriesEncode (th : List (String × ℚ)) :
    decodeNumEntries (th.map (fun kv => (kv.1, Json.num kv.2))) = Option.some th := by
  induction th with
  | nil => rfl
  | cons kv rest ih => cases kv; simp [decodeNumEntries, ih]

/-- Decoding inverts the serialization of a string mapping. -/
theorem decodeStrEntriesEncode (ev : List (String × String)) :
    decodeStrEntries (ev.map (fun kv => (kv.1, Json.str kv.2))) = Option.some ev := by
  induction ev with
  | nil => rfl
  | cons kv rest ih => cases kv; simp [decodeStrEntries, ih]

/-- Looking up a path at the head of the written-files list returns the
file just written there. -/
theorem lookupConsSelf {β : Type} (p : String) (r : β) (l : List (String × β)) :
    List.lookup p ((p, r) :: l) = Option.some r := by
  simp [List.lookup]

/-- The file generate_report writes sits in the output state under the
path generate_report returns. -/
theorem generateReportLookup (sm : Json) (la : LogAnalysis) (th : List (String × ℚ))
    (ev : List (String × String)) (d : String) (st : OutState) (t : Timestamp) :
    List.lookup (generate_report sm la th ev d st t).1
        (generate_report sm la th ev d st t).2.files =
      Option.some (buildReport (isoTimestamp t) sm (logAnalysisToJson la) th ev) := by
  unfold generate_report
  dsimp only
  exact lookupConsSelf _ _ _

/-- Whatever the arguments and inputs, the report cliMain persists is
found in the output file system under the returned path, with exactly the
thresholds and evaluations main computed. -/
theorem cliMainPersists (args : Args) (m : List (String × PyVal)) (fs : FileSys)
    (st : OutState) (t : Timestamp) :
    List.lookup (cliMain args m fs st t).report_path (cliMain args m fs st t).out.files =
      Option.some (buildReport (isoTimestamp t) (pyToJson (PyVal.dict m))
        (logAnalysisToJson (analyze_logs fs args.logs_dir DEFAULT_PATTERNS))
        [("cpu_warn", args.cpu_warn), ("mem_warn", args.mem_warn), ("disk_warn", args.disk_warn)]
        [("cpu_status", _status (_get_usage_percent m "cpu") args.cpu_warn),
         ("memory_status", _status (_get_usage_percent m "memory") args.mem_warn),
         ("disk_status", _status (_get_usage_percent m "disk") args.disk_warn)]) := by
  unfold cliMain
  dsimp only
  split
  · exact generateReportLookup _ _ _ _ _ _ _
  · exact generateReportLookup _ _ _ _ _ _ _

/-- C1: the claim fails on the code. With every usage percent present
(cpu 10, memory 90, disk 10 against warn thresholds 80, 80, 90), no
status is CRITICAL and memory is the only resource at WARN, yet main
returns exit code 0, not 1: the exit-code block reads the key mem_status
while the evaluations dict stores the key memory_status. -/
theorem c1_memory_warn_exits_zero :
    _status (_get_usage_percent memWarnMetrics "cpu") 80 = "OK" ∧
    _status (_get_usage_percent memWarnMetrics "memory") 80 = "WARN" ∧
    _status (_get_usage_percent memWarnMetrics "disk") 90 = "OK" ∧
    (cliMain defaultArgs memWarnMetrics { dirs := [] } st0 t0).exit_code = 0 := by
  decide

/-- C2: the claim fails on the code. For a scan finding one ERROR match,
the sum of the problem counts is 1, but the total the CLI summary
reports is 0: main only reads the keys total_matches and
total_problems_found, which analyze_logs never writes. -/
theorem c2_summary_total_is_zero :
    totalMatchesSpec (analyze_logs logsFsOneError "logs" DEFAULT_PATTERNS) = 1 ∧
    cliTotalMatches (analyze_logs logsFsOneError "logs" DEFAULT_PATTERNS).toPy = 0 ∧
    (cliMain defaultArgs okMetrics logsFsOneError st0 t0).total_matches = 0 := by
  decide

/-- C3 as stated is false on the code: classifying an absent value with
warn threshold 80 returns the string N/A, not UNKNOWN. -/
theorem c3_absent_is_not_unknown :
    _status Option.none 80 = "N/A" ∧ _status Option.none 80 ≠ "UNKNOWN" := by
  decide

/-- C3 amended: classifying an absent value returns N/A (the code's
marker for an unknown reading) for every warn threshold, and every
status classification produces is one of OK, WARN, N/A. -/
theorem c3_absent_is_na (p : Option ℚ) (w : ℚ) :
    _status Option.none w = "N/A" ∧
    (_status p w = "OK" ∨ _status p w = "WARN" ∨ _status p w = "N/A") := by
  refine ⟨rfl, ?_⟩
  cases p with
  | none => right; right; rfl
  | some q =>
      by_cases h : q < w
      · left; simp [_status, h]
      · right; left; simp [_status, h]

/-- C4: build_parser registers no critical-threshold option for any
resource, so the critical branch of the claim is vacuous here, and
classification never produces CRITICAL for any value and warn
threshold. -/
theorem c4_no_critical_tier :
    parserOptionNames.all (fun o => !(strContains o "critical")) = true ∧
    ∀ (p : Option ℚ) (w : ℚ), _status p w ≠ "CRITICAL" := by
  refine ⟨by decide, ?_⟩
  intro p w
  cases p with
  | none => dsimp [_status]; decide
  | some q =>
      dsimp [_status]
      split
      · decide
      · decide

/-- C5 as stated is false on the code: with a cpu warn threshold of 150,
outside the range 0 to 100, and all usage percents present, the run is
not rejected: a report is persisted and the exit code is 0, not 2. -/
theorem c5_out_of_range_accepted :
    (100 : ℚ) < args150.cpu_warn ∧
    (cliMain args150 okMetrics { dirs := [] } st0 t0).exit_code = 0 ∧
    (List.lookup (cliMain args150 okMetrics { dirs := [] } st0 t0).report_path
      (cliMain args150 okMetrics { dirs := [] } st0 t0).out.files).isSome = true := by
  decide

/-- C5 amended: threshold values are not validated. A warn threshold
outside the range 0 to 100 is accepted and used as-is: whenever all
three usage percents are present, the run persists its report and exits
with a status-derived code, never with the configuration-error code
2. -/
theorem c5_no_threshold_validation (args : Args) (m : List (String × PyVal))
    (fs : FileSys) (st : OutState) (t : Timestamp)
    (_hrange : args.cpu_warn < 0 ∨ 100 < args.cpu_warn ∨ args.mem_warn < 0 ∨
      100 < args.mem_warn ∨ args.disk_warn < 0 ∨ 100 < args.disk_warn)
    (hcpu : _get_usage_percent m "cpu" ≠ Option.none)
    (hmem : _get_usage_percent m "memory" ≠ Option.none)
    (hdisk : _get_usage_percent m "disk" ≠ Option.none) :
    (cliMain args m fs st t).exit_code ≠ 2 ∧
    (List.lookup (cliMain args m fs st t).report_path
      (cliMain args m fs st t).out.files).isSome = true := by
  constructor
  · unfold cliMain
    dsimp only
    split
    · dsimp only
      decide
    · dsimp only
      split
      · next hnone =>
          rcases hnone with h | h | h
          · exact absurd h hcpu
          · exact absurd h hmem
          · exact absurd h hdisk
      · split
        · decide
        · decide
  · rw [cliMainPersists]
    rfl

/-- Witness for the amended C5 at threshold 150 and all-present
metrics. -/
theorem c5_witness :
    (cliMain args150 okMetrics { dirs := [] } st0 t0).exit_code ≠ 2 ∧
    (List.lookup (cliMain args150 okMetrics { dirs := [] } st0 t0).report_path
      (cliMain args150 okMetrics { dirs := [] } st0 t0).out.files).isSome = true :=
  c5_no_threshold_validation args150 okMetrics { dirs := [] } st0 t0
    (Or.inr (Or.inl (by decide))) (by decide) (by decide) (by decide)

/-- The first of two persist calls landing in the same clock second. -/
def persistOnce : String × OutState :=
  generate_report smEmpty laEmpty th80 evalsOK "reports" st0 t0

/-- The second persist call in the same second, carrying different
thresholds. -/
def persistTwice : String × OutState :=
  generate_report smEmpty laEmpty th70 evalsOK "reports" persistOnce.2 t0

/-- C6 as stated is false on the code: two persist calls completing in
the same clock second write the same path, so the run does not produce
two distinct files; the shared path now holds the second report (whose
thresholds differ from the first), the first write having been silently
shadowed. Directory creation itself stays idempotent and error-free. -/
theorem c6_same_second_overwrites :
    persistOnce.1 = persistTwice.1 ∧
    persistTwice.2.dirs = ["reports"] ∧
    persistTwice.2.files.map Prod.fst = [persistOnce.1, persistOnce.1] ∧
    List.lookup persistOnce.1 persistTwice.2.files =
      Option.some (buildReport (isoTimestamp t0) smEmpty (logAnalysisToJson laEmpty) th70 evalsOK) ∧
    th70 ≠ th80 := by
  refine ⟨rfl, by decide, by decide, ?_, by decide⟩
  exact generateReportLookup smEmpty laEmpty th70 evalsOK "reports" persistOnce.2 t0

/-- C6 amended: directory creation is idempotent and a repeated persist
never errors; persist calls whose clock readings format to different
seconds produce distinct file paths, while two calls within the same
formatted second produce the same path, the second write landing on top
of the earlier file (the lookup at the returned path always yields the
newest report). -/
theorem c6_persist_paths (ds : List String) (d : String) (sm : Json) (la : LogAnalysis)
    (th1 th2 : List (String × ℚ)) (ev : List (String × String)) (st : OutState)
    (t1 t2 : Timestamp) :
    mkdirs (mkdirs ds d) d = mkdirs ds d ∧
    (fmtTimestamp t1 ≠ fmtTimestamp t2 →
      (generate_report sm la th1 ev d st t1).1 ≠ (generate_report sm la th2 ev d st t2).1) ∧
    (fmtTimestamp t1 = fmtTimestamp t2 →
      (generate_report sm la th1 ev d st t1).1 = (generate_report sm la th2 ev d st t2).1) ∧
    List.lookup (generate_report sm la th2 ev d (generate_report sm la th1 ev d st t1).2 t2).1
        (generate_report sm la th2 ev d (generate_report sm la th1 ev d st t1).2 t2).2.files =
      Option.some (buildReport (isoTimestamp t2) sm (logAnalysisToJson la) th2 ev) := by
  refine ⟨?_, ?_, ?_, generateReportLookup _ _ _ _ _ _ _⟩
  · unfold mkdirs
    by_cases h : d ∈ ds
    · simp [h]
    · simp [h]
  · intro hne heq
    have heq2 : d ++ "/" ++ reportFilename t1 = d ++ "/" ++ reportFilename t2 := heq
    exact hne (reportFilenameInj (strAppendCancelLeft heq2))
  · intro h
    show d ++ "/" ++ reportFilename t1 = d ++ "/" ++ reportFilename t2
    unfold reportFilename
    rw [h]

/-- Witness for the amended C6: a pre-existing reports directory and two
clock readings one second apart. -/
theorem c6_witness :
    mkdirs (mkdirs ["reports"] "reports") "reports" = mkdirs ["reports"] "reports" ∧
    (generate_report smEmpty laEmpty th80 evalsOK "reports" st0 t0).1 ≠
      (generate_report smEmpty laEmpty th80 evalsOK "reports" st0 t0succ).1 :=
  ⟨(c6_persist_paths ["reports"] "reports" smEmpty laEmpty th80 th80 evalsOK st0 t0 t0succ).1,
   (c6_persist_paths ["reports"] "reports" smEmpty laEmpty th80 th80 evalsOK st0 t0 t0succ).2.1
     (by decide)⟩

/-- C7: the persisted report document has exactly the five stable
top-level keys in source order, and parsing it back recovers the same
thresholds and evaluations mappings that were passed to report
generation. -/
theorem c7_round_trip (sm : Json) (la : LogAnalysis) (th : List (String × ℚ))
    (ev : List (String × String)) (d : String) (st : OutState) (t : Timestamp) :
    List.lookup (generate_report sm la th ev d st t).1
        (generate_report sm la th ev d st t).2.files =
      Option.some (buildReport (isoTimestamp t) sm (logAnalysisToJson la) th ev) ∧
    jKeys (buildReport (isoTimestamp t) sm (logAnalysisToJson la) th ev) =
      ["timestamp", "system_metrics", "log_analysis", "thresholds", "evaluations"] ∧
    ((jGet (buildReport (isoTimestamp t) sm (logAnalysisToJson la) th ev) "thresholds").bind
        decodeThresholds) = Option.some th ∧
    ((jGet (buildReport (isoTimestamp t) sm (logAnalysisToJson la) th ev) "evaluations").bind
        decodeEvaluations) = Option.some ev := by
  refine ⟨generateReportLookup _ _ _ _ _ _ _, rfl, ?_, ?_⟩
  · have h : jGet (buildReport (isoTimestamp t) sm (logAnalysisToJson la) th ev) "thresholds" =
        Option.some (Json.obj (th.map (fun kv => (kv.1, Json.num kv.2)))) := rfl
    rw [h]
    dsimp only [Option.bind]
    unfold decodeThresholds
    exact decodeNumEntriesEncode th
  · have h : jGet (buildReport (isoTimestamp t) sm (logAnalysisToJson la) th ev) "evaluations" =
        Option.some (Json.obj (ev.map (fun kv => (kv.1, Json.str kv.2)))) := rfl
    rw [h]
    dsimp only [Option.bind]
    unfold decodeEvaluations
    exact decodeStrEntriesEncode ev

/-- C8: scanning a directory that does not exist returns the zeroed
analysis: zero files scanned, every keyword of the fixed pattern set
mapped to zero matches and to an empty example list, with the supplied
path still recorded; the embedding is a total function, so no failure
occurs. -/
theorem c8_nonexistent_dir (fs : FileSys) (dir : String)
    (h : List.lookup dir fs.dirs = Option.none) :
    analyze_logs fs dir DEFAULT_PATTERNS =
      { logs_dir := dir
        files_scanned := 0
        problem_counts := DEFAULT_PATTERNS.map (fun p => (p, 0))
        examples := DEFAULT_PATTERNS.map (fun p => (p, [])) } := by
  unfold analyze_logs
  rw [h]

/-- Witness for C8 at a concrete nonexistent path. -/
theorem c8_witness :
    analyze_logs { dirs := [] } "/does/not/exist" DEFAULT_PATTERNS =
      { logs_dir := "/does/not/exist"
        files_scanned := 0
        problem_counts := DEFAULT_PATTERNS.map (fun p => (p, 0))
        examples := DEFAULT_PATTERNS.map (fun p => (p, [])) } :=
  c8_nonexistent_dir { dirs := [] } "/does/not/exist" rfl

/-- C9: under json_only, once persistence succeeds main returns exit
code 0 unconditionally, whatever the metrics, logs and resulting
evaluations. -/
theorem c9_json_only_exit_zero (args : Args) (m : List (String × PyVal)) (fs : FileSys)
    (st : OutState) (t : Timestamp) (h : args.json_only = true) :
    (cliMain args m fs st t).exit_code = 0 := by
  unfold cliMain
  dsimp only
  rw [if_pos h]

/-- Witness for C9: json_only with the memory section missing and cpu
over its warn threshold still exits 0. -/
theorem c9_witness :
    _get_usage_percent brokenMetrics "memory" = Option.none ∧
    _status (_get_usage_percent brokenMetrics "cpu") jsonOnlyArgs.cpu_warn = "WARN" ∧
    (cliMain jsonOnlyArgs brokenMetrics { dirs := [] } st0 t0).exit_code = 0 :=
  ⟨by decide, by decide,
   c9_json_only_exit_zero jsonOnlyArgs brokenMetrics { dirs := [] } st0 t0 rfl⟩

/-- C10: metric extraction is total at its interface. A missing section,
a section that is not a dict, and a usage_percent entry that is absent
or not convertible to float all yield none rather than an error, the
conversion of None itself is none, and a none extraction is rendered as
the status N/A. -/
theorem c10_extraction_total (m : List (String × PyVal)) (s : String) (w : ℚ) :
    (pyGet m s = Option.none → _get_usage_percent m s = Option.none) ∧
    (∀ v, pyGet m s = Option.some v → (∀ b, v ≠ PyVal.dict b) →
      _get_usage_percent m s = Option.none) ∧
    (∀ b, pyGet m s = Option.some (PyVal.dict b) →
      _as_float ((pyGet b "usage_percent").getD PyVal.none) = Option.none →
      _get_usage_percent m s = Option.none) ∧
    _as_float PyVal.none = Option.none ∧
    (_get_usage_percent m s = Option.none → _status (_get_usage_percent m s) w = "N/A") := by
  refine ⟨?_, ?_, ?_, rfl, ?_⟩
  · intro h
    unfold _get_usage_percent
    rw [h]
  · intro v hv hnd
    unfold _get_usage_percent
    rw [hv]
    cases v with
    | dict b => exact absurd rfl (hnd b)
    | none => rfl
    | bool b => rfl
    | int n => rfl
    | float q => rfl
    | str s2 => rfl
    | list l => rfl
  · intro b hb hf
    unfold _get_usage_percent
    rw [hb]
    exact hf
  · intro h
    rw [h]
    rfl

/-- Witness for C10 across the failure shapes: a missing section, a
non-dict section, a dict without usage_percent, a usage_percent that is
a list, and the N/A rendering. -/
theorem c10_witness :
    _get_usage_percent [] "cpu" = Option.none ∧
    _get_usage_percent [("cpu", PyVal.str "busy")] "cpu" = Option.none ∧
    _get_usage_percent [("cpu", PyVal.dict [])] "cpu" = Option.none ∧
    _get_usage_percent [("cpu", PyVal.dict [("usage_percent", PyVal.list [])])] "cpu" =
      Option.none ∧
    _status (_get_usage_percent [] "cpu") 80 = "N/A" :=
  ⟨(c10_extraction_total [] "cpu" 80).1 rfl,
   (c10_extraction_total [("cpu", PyVal.str "busy")] "cpu" 80).2.1 (PyVal.str "busy") rfl
     (fun _ hb => PyVal.noConfusion hb),
   (c10_extraction_total [("cpu", PyVal.dict [])] "cpu" 80).2.2.1 [] rfl rfl,
   (c10_extraction_total [("cpu", PyVal.dict [("usage_percent", PyVal.list [])])] "cpu" 80).2.2.1
     [("usage_percent", PyVal.list [])] rfl rfl,
   (c10_extraction_total [] "cpu" 80).2.2.2.2 ((c10_extraction_total [] "cpu" 80).1 rfl)⟩
